import Mathlib

set_option maxRecDepth 4000

/-!
Shallow embedding of the Boundr background service worker (src/unnamed/part_003):
the storage records (settings / usageToday / flags), the TimeKeeper state machine
(tick, checkLimits, triggerNudge, triggerLimit, start, stop, setActive), and the
TwitterTimeLimitService operations (handleSnoozeRequest with its cooldown timer,
togglePause, manualReset, updateTrackingImmediate, handleBypassRequest,
checkDailyReset, and the UPDATE_SETTINGS message handler).

Modelling conventions:
* Timestamps (Date.now()) are naturals supplied by the environment.
* Chrome storage writes are assumed to succeed; the StorageManager cache is kept
  consistent with every write synchronously in the source, so storage reads are
  modelled as reads of the current record.  Tab/notification/broadcast messaging
  is I/O and is modelled as emitted events.
* JavaScript subtraction guarded by comparisons of the form `a - b < k` or
  `a - b >= k` with `a, b >= 0` behaves identically under truncated Nat
  subtraction, which is used throughout (a negative JS difference is below every
  positive threshold, and truncated subtraction yields 0 there).
* The in-flight guards that the source clears in `finally` blocks on every path
  (pauseInProgress, resetInProgress, updateTrackingInProgress, startInProgress,
  stopInProgress) are always false at operation boundaries in the synchronous
  event-loop model and are omitted.  `snoozeInProgress` is NOT cleared on the
  failure paths in the source and is therefore modelled explicitly.
-/

namespace Boundr

/-- Settings record, shape of DEFAULT_SETTINGS in the service worker. -/
structure Settings where
  dailyLimitMin : Nat
  resetHourLocal : Nat
  mode : String
  allowSnooze : Bool
  theme : String
  tone : String
  passcodeHash : Option String
  cooldownMin : Nat
  enabled : Bool
deriving DecidableEq

/-- Daily usage record (usageToday), shape of DEFAULT_USAGE. -/
structure DailyUsage where
  millisActive : Nat
  lastTickAt : Nat
  dateKey : String
deriving DecidableEq

/-- Flags record.  DEFAULT_FLAGS only lists four keys; `snoozeUsedToday` and
`frozenTimeUsed` are absent (undefined) there, which reads as false / none. -/
structure Flags where
  nudged : Bool
  locked : Bool
  pausedToday : Bool
  snoozed : Bool
  snoozeUsedToday : Bool
  frozenTimeUsed : Option Nat
deriving DecidableEq

/-- In-memory TimeKeeper instance state.  `running` models the truthiness of
`tickInterval` (the periodic alarm handle). -/
structure TimeKeeperState where
  isActive : Bool
  lastTickTime : Option Nat
  running : Bool
  currentUsageMs : Nat
  isInitialized : Bool
  isPaused : Bool
  isLocked : Bool
  lastActiveChange : Nat
  lastIdleTime : Nat
  lastUsageSave : Nat
  usageSaveInterval : Nat
  writeBackoffUntil : Nat
deriving DecidableEq

/-- Combined state of the background service worker: the three storage records,
the TimeKeeper, and the TwitterTimeLimitService instance fields used by the
operations under study.  `snoozeTimers` is the queue of pending post-snooze
cooldown setTimeout callbacks as (fire time, cooldown millis) pairs. -/
structure ServiceState where
  settings : Settings
  usage : DailyUsage
  flags : Flags
  tk : TimeKeeperState
  isTracking : Bool
  snoozeInProgress : Bool
  lastSnoozeRequest : Nat
  lastPauseToggle : Nat
  lastSettingsUpdate : Nat
  lastResetRequestAt : Nat
  suppressStopUntil : Nat
  snoozeTimers : List (Nat × Nat)
deriving DecidableEq

/-- Default flags: every boolean false, no frozen value. -/
def DEFAULT_FLAGS : Flags :=
  { nudged := false, locked := false, pausedToday := false, snoozed := false
    snoozeUsedToday := false, frozenTimeUsed := none }

/-- DEFAULT_USAGE is a module-level constant: `lastTickAt` and `dateKey` are
captured when the service worker script is evaluated. -/
def DEFAULT_USAGE (moduleLoadTime : Nat) (moduleLoadKey : String) : DailyUsage :=
  { millisActive := 0, lastTickAt := moduleLoadTime, dateKey := moduleLoadKey }

/-- Module evaluation context: the values of Date.now() and getDateKey() at
script load (used by DEFAULT_USAGE), needed by checkDailyReset. -/
structure Ctx where
  moduleLoadTime : Nat
  moduleLoadKey : String
deriving DecidableEq

/-- Outbound directives / notifications emitted by the core (tab messaging is
best-effort I/O; only the kind and payload matter to the model). -/
inductive Event where
  | nudge (timeLeft : Nat)
  | softLock
deriving DecidableEq

/-- Evaluation of `settings.cooldownMin || 5`: a missing or zero cooldown is
falsy in JS and falls back to 5. -/
def cooldownOr5 (s : Settings) : Nat :=
  if s.cooldownMin = 0 then 5 else s.cooldownMin

/-- RulesEngine.validatePasscode: strict equality against the stored value;
with no passcode configured it returns false. -/
def validatePasscode (inputPasscode : Option String) (settings : Settings) : Bool :=
  match settings.passcodeHash with
  | none => false
  | some h => inputPasscode = some h

/-- StorageManager.checkDailyReset (service-worker copy): on a dateKey mismatch
replace usageToday with DEFAULT_USAGE at the new key and flags with
DEFAULT_FLAGS, returning true; otherwise a no-op returning false. -/
def checkDailyReset (ctx : Ctx) (currentDateKey : String) (s : ServiceState) :
    Bool × ServiceState :=
  if s.usage.dateKey ≠ currentDateKey then
    (true,
      { s with
        usage := { DEFAULT_USAGE ctx.moduleLoadTime ctx.moduleLoadKey with
                   dateKey := currentDateKey }
        flags := DEFAULT_FLAGS })
  else (false, s)

/-- TimeKeeper.syncWithStorage: a no-op once initialized; on first call adopt
the stored usage and flags into the in-memory fields. -/
def syncWithStorage (s : ServiceState) : ServiceState :=
  if s.tk.isInitialized then s
  else
    { s with
      tk := { s.tk with
              currentUsageMs := s.usage.millisActive
              isPaused := s.flags.pausedToday
              isLocked := s.flags.locked
              isInitialized := true
              lastTickTime := if s.usage.millisActive = 0 then none
                              else s.tk.lastTickTime } }

/-- TimeKeeper.stop: clear the tick alarm, flush the in-memory counter to the
stored usage record when positive, and deactivate. -/
def stop (now : Nat) (s : ServiceState) : ServiceState :=
  { s with
    usage := if 0 < s.tk.currentUsageMs then
               { s.usage with millisActive := s.tk.currentUsageMs, lastTickAt := now }
             else s.usage
    tk := { s.tk with running := false, isActive := false, lastTickTime := none } }

/-- TimeKeeper.start: refuse while the alarm exists or while locked; sync with
storage on first use, re-check the lock, then create the tick alarm. -/
def start (now : Nat) (s : ServiceState) : ServiceState :=
  if s.tk.running then s
  else if s.tk.isLocked then s
  else
    let s1 := syncWithStorage s
    if s1.tk.isLocked then s1
    else if s1.tk.running then s1
    else { s1 with tk := { s1.tk with lastTickTime := some now, running := true } }

/-- TimeKeeper.setActive: debounced (200ms) activity toggle that refuses to
re-activate while locked and re-anchors the tick timestamp on activation. -/
def setActive (now : Nat) (active : Bool) (s : ServiceState) : ServiceState :=
  if s.tk.isActive = active then s
  else if now - s.tk.lastActiveChange < 200 then s
  else if s.tk.isLocked && active then s
  else
    { s with
      tk := { s.tk with
              lastActiveChange := now
              isActive := active
              lastTickTime := if active then some now else s.tk.lastTickTime } }

/-- TimeKeeper.triggerNudge: guarded one-shot warning; sets `nudged` and emits
the SHOW_NUDGE directive with the real-time remaining amount. -/
def triggerNudge (s : ServiceState) : List Event × ServiceState :=
  if !s.settings.enabled || !s.settings.allowSnooze || s.flags.nudged
      || s.flags.pausedToday || s.flags.snoozed || s.flags.locked then ([], s)
  else
    let s1 := { s with flags := { s.flags with nudged := true } }
    let eff := if s1.flags.snoozed then cooldownOr5 s1.settings * 60 * 1000
               else s1.settings.dailyLimitMin * 60 * 1000
    let realTimeLeft := eff - s1.tk.currentUsageMs
    ([Event.nudge realTimeLeft], s1)

/-- TimeKeeper.triggerLimit: when the in-memory counter has reached the
effective limit minus the 2000ms tick buffer, set locked, clear nudged, freeze
`frozenTimeUsed` at the effective limit, mark the TimeKeeper locked and stop
it, and emit the block directive.  `snoozed` is left untouched. -/
def triggerLimit (now : Nat) (s : ServiceState) : List Event × ServiceState :=
  if !s.settings.enabled || s.flags.locked || s.flags.pausedToday then ([], s)
  else
    let eff := if s.flags.snoozed then cooldownOr5 s.settings * 60 * 1000
               else s.settings.dailyLimitMin * 60 * 1000
    if eff - 2000 ≤ s.tk.currentUsageMs then
      let s1 := { s with
                  flags := { s.flags with
                             locked := true, nudged := false, frozenTimeUsed := some eff } }
      let s2 := { s1 with tk := { s1.tk with isLocked := true } }
      ([Event.softLock], stop now s2)
    else ([], s)

/-- TimeKeeper.checkLimits over the freshly computed usage record.  While
snoozed the limit is the cooldown budget and the nudge check is skipped;
otherwise the nudge threshold is `effectiveLimit * 0.8`, which for limits that
are multiples of 60000 the JS double product rounds to exactly `eff * 4 / 5`,
so the integer comparison below is exact. -/
def checkLimits (now : Nat) (usage : DailyUsage) (s : ServiceState) :
    List Event × ServiceState :=
  if !s.settings.enabled || s.flags.pausedToday || s.flags.locked then ([], s)
  else if s.flags.snoozed then
    let eff := cooldownOr5 s.settings * 60 * 1000
    if eff - 2000 ≤ usage.millisActive then triggerLimit now s else ([], s)
  else
    let eff := s.settings.dailyLimitMin * 60 * 1000
    let nudgeThreshold := eff * 4 / 5
    let p := if !s.flags.nudged && nudgeThreshold ≤ usage.millisActive then triggerNudge s
             else ([], s)
    if eff - 2000 ≤ usage.millisActive then
      let q := triggerLimit now p.2
      (p.1 ++ q.1, q.2)
    else p

/-- Environment of one TimeKeeper.tick invocation: the current time and the
host idle/screen-lock report. -/
structure TickEnv where
  now : Nat
  idle : Bool
deriving DecidableEq

/-- TimeKeeper.tick: drop inactive or tiny deltas; while locked, disabled or
paused only re-anchor; on an idle report re-anchor without accumulating;
otherwise accumulate the delta, persist at the throttled cadence (writes
assumed to succeed) and evaluate the limits. -/
def tick (e : TickEnv) (s : ServiceState) : List Event × ServiceState :=
  if s.tk.isActive then
    match s.tk.lastTickTime with
    | some t =>
      let delta := e.now - t
      if delta < 100 then ([], s)
      else if s.tk.isLocked || !s.settings.enabled || s.flags.locked
          || s.flags.pausedToday then
        ([], { s with tk := { s.tk with lastTickTime := some e.now } })
      else if e.idle then
        ([], { s with tk := { s.tk with lastTickTime := some e.now } })
      else
        let cum := s.tk.currentUsageMs + delta
        let newUsage : DailyUsage :=
          { s.usage with millisActive := cum, lastTickAt := e.now }
        let doSave := s.tk.writeBackoffUntil ≤ e.now
            && s.tk.usageSaveInterval ≤ e.now - s.tk.lastUsageSave
        let s1 : ServiceState :=
          { s with
            usage := if doSave then newUsage else s.usage
            tk := { s.tk with
                    currentUsageMs := cum
                    lastUsageSave := if doSave then e.now else s.tk.lastUsageSave
                    writeBackoffUntil := if doSave then 0 else s.tk.writeBackoffUntil
                    lastTickTime := some e.now } }
        checkLimits e.now newUsage s1
    | none => ([], s)
  else ([], s)

/-- Result of a snooze request as sent back in sendResponse: either success or
a typed failure with the error string from the source. -/
inductive SnoozeResult where
  | success
  | failure (error : String)
deriving DecidableEq

/-- TwitterTimeLimitService.handleSnoozeRequest.  The in-progress guard is set
before the validation checks and is not cleared on any failure path (only the
cooldown setTimeout clears it).  On success: stop the TimeKeeper, reset the
usage record and in-memory counter to zero, merge the snooze flags, and
schedule the cooldown timer. -/
def handleSnoozeRequest (now : Nat) (dateKey : String) (s : ServiceState) :
    SnoozeResult × ServiceState :=
  if s.snoozeInProgress then (.failure "Snooze in progress", s)
  else
    let s := { s with snoozeInProgress := true }
    if now - s.lastSnoozeRequest < 2000 then
      (.failure "Please wait before requesting snooze again", s)
    else
      let s := { s with lastSnoozeRequest := now }
      if !s.settings.allowSnooze then (.failure "Snooze not allowed", s)
      else if s.flags.snoozed || s.flags.snoozeUsedToday then
        (.failure "Snooze already used today", s)
      else
        let cooldownMinutes := cooldownOr5 s.settings
        let s := stop now s
        let s := { s with
                   usage := { millisActive := 0, lastTickAt := now, dateKey := dateKey } }
        let s := { s with
                   tk := { s.tk with
                           currentUsageMs := 0
                           isInitialized := true
                           isPaused := false
                           isLocked := false
                           lastTickTime := some now
                           lastUsageSave := 0 } }
        let s := { s with
                   flags := { s.flags with
                              snoozed := true
                              snoozeUsedToday := true
                              locked := false
                              nudged := false
                              frozenTimeUsed := none } }
        let cooldownDurationMillis := cooldownMinutes * 60 * 1000
        let s := { s with
                   snoozeTimers :=
                     s.snoozeTimers ++ [(now + cooldownDurationMillis, cooldownDurationMillis)] }
        (.success, s)

/-- Body of the post-snooze cooldown setTimeout: once due, merge the lock
flags (snoozed off, locked on, frozen at the cooldown budget), stop the
TimeKeeper and clear the in-progress guard.  Nothing in the source cancels or
re-checks this timer. -/
def snoozeTimerFire (now : Nat) (s : ServiceState) : List Event × ServiceState :=
  match s.snoozeTimers with
  | [] => ([], s)
  | (fireAt, cooldownMs) :: rest =>
    if now < fireAt then ([], s)
    else
      let s1 := { s with
                  flags := { s.flags with
                             snoozed := false
                             locked := true
                             nudged := false
                             frozenTimeUsed := some cooldownMs } }
      let s2 := { s1 with tk := { s1.tk with isLocked := true } }
      let s3 := stop now s2
      ([Event.softLock], { s3 with snoozeInProgress := false, snoozeTimers := rest })

/-- Environment of updateTrackingImmediate: current time and the tab/window/
popup signals obtained from the browser queries. -/
structure TrackEnv where
  now : Nat
  hasActiveXTabInFocusedWindow : Bool
  hasActiveXTabAnywhere : Bool
  popupOpen : Bool
deriving DecidableEq

/-- TwitterTimeLimitService.updateTrackingImmediate: recompute whether the
TimeKeeper should run from the tab/focus/popup signals and the flags, honour
the suppress-stop grace window, and start/stop/activate the TimeKeeper
accordingly (overlay delivery and broadcasts are I/O). -/
def updateTrackingImmediate (e : TrackEnv) (s : ServiceState) : ServiceState :=
  let wasTracking := s.isTracking
  let suppressStops := e.now < s.suppressStopUntil
  let allowDueToPopup := e.popupOpen && e.hasActiveXTabAnywhere
  let shouldTrack0 :=
    (e.hasActiveXTabInFocusedWindow || allowDueToPopup)
      && s.settings.enabled && !s.flags.pausedToday && !s.flags.locked && !s.tk.isLocked
  let shouldTrack :=
    if !shouldTrack0 && suppressStops then wasTracking || allowDueToPopup
    else shouldTrack0
  let s := { s with isTracking := shouldTrack }
  if s.flags.pausedToday then s
  else if s.flags.locked then stop e.now s
  else if s.isTracking then
    let s := if !s.tk.running && !s.flags.locked && !s.tk.isLocked then start e.now s
             else s
    if !s.tk.isPaused && !s.flags.locked && !s.tk.isLocked then setActive e.now true s
    else s
  else if !s.isTracking && wasTracking then
    if suppressStops then s else stop e.now s
  else s

/-- Handler of the USER_ACTIVITY content-script message: while not paused,
rewind the debounce anchor and force the TimeKeeper active. -/
def userActivity (now : Nat) (s : ServiceState) : ServiceState :=
  if !s.tk.isPaused then
    setActive now true { s with tk := { s.tk with lastActiveChange := now - 300 } }
  else s

/-- Environment of togglePause's resume branch (popup connection and active
tab queries). -/
structure PauseEnv where
  now : Nat
  popupOpen : Bool
  hasActiveXTab : Bool
deriving DecidableEq

/-- TwitterTimeLimitService.togglePause: rate-limited toggle of pausedToday.
Pausing during a snooze ends the snooze (snoozed and locked cleared) and stops
the TimeKeeper; resuming opens a suppress-stop grace window and restarts the
TimeKeeper when applicable.  The pending snooze cooldown timer is not touched. -/
def togglePause (e : PauseEnv) (s : ServiceState) : ServiceState :=
  if e.now - s.lastPauseToggle < 1000 then s
  else
    let s := { s with lastPauseToggle := e.now }
    let newPausedState := !s.flags.pausedToday
    let s := { s with flags := { s.flags with pausedToday := newPausedState } }
    let s := { s with tk := { s.tk with isPaused := newPausedState } }
    if newPausedState then
      let s :=
        if s.flags.snoozed then
          { s with flags := { s.flags with
                              snoozed := false, locked := false, pausedToday := true } }
        else s
      stop e.now s
    else
      let s := { s with suppressStopUntil := e.now + 1200 }
      let s :=
        if e.popupOpen && e.hasActiveXTab then
          let s := if !s.tk.running then start e.now s else s
          setActive e.now true s
        else s
      if s.isTracking then
        let s := if !s.tk.running then start e.now s else s
        setActive e.now true s
      else s

/-- TwitterTimeLimitService.manualReset: rate-limited full reset — stop the
TimeKeeper, zero the in-memory and stored usage, replace the flags record
(note: replacement, so snoozeUsedToday is also dropped), open a suppress-stop
window and recompute tracking.  The pending snooze timer and the snooze
in-progress guard are not touched. -/
def manualReset (now : Nat) (dateKey : String) (te : TrackEnv) (s : ServiceState) :
    ServiceState :=
  if s.lastResetRequestAt ≠ 0 && now - s.lastResetRequestAt < 1500 then s
  else
    let s := { s with lastResetRequestAt := now }
    let s := stop now s
    let s := { s with
               tk := { s.tk with
                       currentUsageMs := 0
                       isInitialized := true
                       isLocked := false
                       isPaused := false
                       lastTickTime := none } }
    let s := { s with
               usage := { millisActive := 0, lastTickAt := now, dateKey := dateKey }
               flags := { nudged := false, locked := false, pausedToday := false
                          snoozed := false, snoozeUsedToday := false
                          frozenTimeUsed := none } }
    let s := { s with suppressStopUntil := now + 1500 }
    updateTrackingImmediate te s

/-- TwitterTimeLimitService.clearLockedState (reachable as this.clearLockedState
from the CLEAR_LOCK message): clear locked and the frozen value when locked. -/
def clearLockedState (s : ServiceState) : ServiceState :=
  if s.flags.locked then
    { s with
      flags := { s.flags with locked := false, frozenTimeUsed := none }
      tk := { s.tk with isLocked := false } }
  else s

/-- TwitterTimeLimitService.handleBypassRequest.  After validating the
passcode (the result only selects which notification to show), the handler
calls the bare identifier `clearLockedState()`: the only binding with that
name is the class method, which is reachable only as this.clearLockedState, so
the call throws a ReferenceError before any flag is changed, and the error is
caught by handleMessage which sends it back as an error response. -/
def handleBypassRequest (passcode : Option String) (s : ServiceState) :
    Except String ServiceState :=
  let _isValid := validatePasscode passcode s.settings
  Except.error "ReferenceError: clearLockedState is not defined"

/-- UPDATE_SETTINGS message payload restricted to the fields the handler
inspects structurally: partial settings (absent = undefined) plus the
resetUsage companion flag. -/
structure UpdateSettingsMsg where
  dailyLimitMin : Option Nat
  cooldownMin : Option Nat
  enabled : Option Bool
  resetUsage : Bool
deriving DecidableEq

/-- The UPDATE_SETTINGS branch of TwitterTimeLimitService.handleMessage.
When dailyLimitMin changes and the in-memory usage reaches the new limit minus
the 2000ms tick buffer, lock immediately (batching the lock flags with the
settings write); when cooldownMin changes, reset the usage counter to zero and
cancel any immediate lock prepared above; then merge and persist the updated
settings and the batched records. -/
def handleUpdateSettings (now : Nat) (dateKey : String) (msg : UpdateSettingsMsg)
    (s : ServiceState) : ServiceState :=
  if now - s.lastSettingsUpdate < 1000 then s
  else
    let s := { s with lastSettingsUpdate := now }
    let oldSettings := s.settings
    -- daily limit change: possibly prepare an immediate lock
    let r1 :=
      match msg.dailyLimitMin with
      | some newLimitMin =>
        if oldSettings.dailyLimitMin ≠ newLimitMin then
          let newLimitMs := newLimitMin * 60 * 1000
          if newLimitMs - 2000 ≤ s.tk.currentUsageMs then
            let s := { s with tk := { s.tk with isLocked := true } }
            let s := stop now s
            (true, s,
              some { s.flags with locked := true, frozenTimeUsed := some newLimitMs })
          else (false, s, none)
        else (false, s, none)
      | none => (false, s, none)
    let shouldLockImmediately := r1.1
    let s := r1.2.1
    let flagsUpdate0 := r1.2.2
    -- cooldown change: always reset the counter, cancelling the immediate lock
    let r2 :=
      match msg.cooldownMin with
      | some newCooldownMin =>
        if oldSettings.cooldownMin ≠ newCooldownMin then
          let s := { s with
                     tk := { s.tk with
                             currentUsageMs := 0, isInitialized := true, isPaused := false } }
          let usageUpdate : Option DailyUsage :=
            some { millisActive := 0, lastTickAt := now, dateKey := dateKey }
          if shouldLockImmediately then
            ({ s with tk := { s.tk with isLocked := false } },
              (none : Option Flags), usageUpdate)
          else (s, flagsUpdate0, usageUpdate)
        else (s, flagsUpdate0, none)
      | none => (s, flagsUpdate0, none)
    let s := r2.1
    let flagsUpdate := r2.2.1
    let usageUpdate := r2.2.2
    let newSettings :=
      { oldSettings with
        dailyLimitMin := msg.dailyLimitMin.getD oldSettings.dailyLimitMin
        cooldownMin := msg.cooldownMin.getD oldSettings.cooldownMin
        enabled := msg.enabled.getD oldSettings.enabled }
    -- message.resetUsage: zero the usage record and clear the lock flags
    let r3 :=
      if msg.resetUsage then
        ((some { millisActive := 0, lastTickAt := now, dateKey := dateKey } :
            Option DailyUsage),
          some { s.flags with
                 nudged := false, locked := false, snoozed := false
                 frozenTimeUsed := none },
          { s with tk := { s.tk with isLocked := false } })
      else (usageUpdate, flagsUpdate, s)
    let s := r3.2.2
    -- chrome.storage.local.set(storageUpdates); the cache is cleared and
    -- subsequent reads observe exactly these records
    { s with
      settings := newSettings
      usage := r3.1.getD s.usage
      flags := (r3.2.1).getD s.flags }

/-- Closed set of externally triggered operations of the core state machine
(ticks, snooze requests and their deferred cooldown timer, pause toggles,
manual and daily resets, tracking recomputation, user-activity pings and
bypass requests). -/
inductive Op where
  | tick (e : TickEnv)
  | snoozeReq (now : Nat) (dateKey : String)
  | snoozeFire (now : Nat)
  | pauseToggle (e : PauseEnv)
  | reset (now : Nat) (dateKey : String) (te : TrackEnv)
  | dailyReset (currentDateKey : String)
  | trackingUpdate (e : TrackEnv)
  | activity (now : Nat)
  | bypass (passcode : Option String)
deriving DecidableEq

/-- One step of the event loop: dispatch an operation, returning the emitted
directives and the successor state.  A bypass request leaves the state
unchanged (its handler throws before mutating anything). -/
def stepE (ctx : Ctx) (o : Op) (s : ServiceState) : List Event × ServiceState :=
  match o with
  | .tick e => tick e s
  | .snoozeReq now dateKey => ([], (handleSnoozeRequest now dateKey s).2)
  | .snoozeFire now => snoozeTimerFire now s
  | .pauseToggle e => ([], togglePause e s)
  | .reset now dateKey te => ([], manualReset now dateKey te s)
  | .dailyReset key => ([], (checkDailyReset ctx key s).2)
  | .trackingUpdate e => ([], updateTrackingImmediate e s)
  | .activity now => ([], userActivity now s)
  | .bypass pc =>
    match handleBypassRequest pc s with
    | .ok s1 => ([], s1)
    | .error _ => ([], s)

/-- State after one operation. -/
def step (ctx : Ctx) (o : Op) (s : ServiceState) : ServiceState :=
  (stepE ctx o s).2

/-- State after a sequence of operations. -/
def runOps (ctx : Ctx) (ops : List Op) (s : ServiceState) : ServiceState :=
  ops.foldl (fun s o => step ctx o s) s

/-- State after a sequence of ticks. -/
def runTicks (envs : List TickEnv) (s : ServiceState) : ServiceState :=
  envs.foldl (fun s e => (tick e s).2) s

/-- Events emitted along a sequence of ticks. -/
def runTicksEvents (envs : List TickEnv) (s : ServiceState) : List Event :=
  match envs with
  | [] => []
  | e :: rest => (tick e s).1 ++ runTicksEvents rest (tick e s).2

/-- Number of nudge directives in an event list. -/
def countNudge (es : List Event) : Nat :=
  (es.filter fun e => match e with | .nudge _ => true | _ => false).length

/-- A freshly synced TimeKeeper: initialized from empty storage, idle and
unlocked. -/
def initTK : TimeKeeperState :=
  { isActive := false, lastTickTime := none, running := false, currentUsageMs := 0
    isInitialized := true, isPaused := false, isLocked := false
    lastActiveChange := 0, lastIdleTime := 0, lastUsageSave := 0
    usageSaveInterval := 60000, writeBackoffUntil := 0 }

/-- A fresh service state for the given settings on the given date: default
flags and empty usage, no pending guards or timers. -/
def initService (st : Settings) (dateKey : String) : ServiceState :=
  { settings := st
    usage := { millisActive := 0, lastTickAt := 1000, dateKey := dateKey }
    flags := DEFAULT_FLAGS
    tk := initTK
    isTracking := false
    snoozeInProgress := false
    lastSnoozeRequest := 0
    lastPauseToggle := 0
    lastSettingsUpdate := 0
    lastResetRequestAt := 0
    suppressStopUntil := 0
    snoozeTimers := [] }

/-- DEFAULT_SETTINGS of the service worker with the extension switched on
(enabled is the only field a user must flip for tracking to run at all). -/
def baseSettings : Settings :=
  { dailyLimitMin := 30, resetHourLocal := 4, mode := "softlock", allowSnooze := true
    theme := "system", tone := "classic", passcodeHash := none, cooldownMin := 5
    enabled := true }

/-- Module context used by the concrete scenarios. -/
def ctx0 : Ctx := { moduleLoadTime := 1000, moduleLoadKey := "2024-01-01" }

/-- Concrete reachable scenario for the lock/snooze exclusion analysis: a
granted snooze, a tracking recomputation that restarts the TimeKeeper (the
user keeps browsing during the snooze window), and one tick whose accumulated
usage reaches the cooldown limit minus the tick buffer. -/
def c1Ops : List Op :=
  [ Op.snoozeReq 10000 "2024-01-01"
  , Op.trackingUpdate { now := 10500, hasActiveXTabInFocusedWindow := true
                        hasActiveXTabAnywhere := true, popupOpen := false }
  , Op.tick { now := 308500, idle := false } ]

/-- Whether a tick under environment `e` would reach the lock branch of
triggerLimit from state `s` (mirror of the branch conditions of tick,
checkLimits and triggerLimit; the nudge step cannot change any of the fields
these conditions read). -/
def tickWouldLock (e : TickEnv) (s : ServiceState) : Bool :=
  s.tk.isActive &&
  (match s.tk.lastTickTime with
   | none => false
   | some t =>
     let delta := e.now - t
     let eff := if s.flags.snoozed then cooldownOr5 s.settings * 60 * 1000
                else s.settings.dailyLimitMin * 60 * 1000
     !(decide (delta < 100))
       && !(s.tk.isLocked || !s.settings.enabled || s.flags.locked || s.flags.pausedToday)
       && !e.idle
       && decide (eff - 2000 ≤ s.tk.currentUsageMs + delta))

/-- Mutual exclusion of the locked and snoozed flags. -/
def lockSnoozeExcl (s : ServiceState) : Prop :=
  ¬(s.flags.locked = true ∧ s.flags.snoozed = true)

/-- Concrete locked state with a configured passcode, used to evaluate the
bypass handler: the daily limit was reached and frozen. -/
def lockedWithPasscode : ServiceState :=
  let s0 := initService { baseSettings with passcodeHash := some "1234" } "2024-01-01"
  { s0 with
    flags := { s0.flags with locked := true, frozenTimeUsed := some 1800000 }
    tk := { s0.tk with isLocked := true, currentUsageMs := 1798000 } }

/-- A service state whose TimeKeeper has been started and activated at time
`t0` (the state right after tracking began on a fresh day). -/
def startedService (st : Settings) (t0 : Nat) : ServiceState :=
  let s := initService st "2024-01-01"
  { s with
    isTracking := true
    tk := { s.tk with isActive := true, running := true, lastTickTime := some t0 } }

/-- Settings with a one-minute daily limit (the C3 scenario). -/
def oneMinuteSettings : Settings := { baseSettings with dailyLimitMin := 1 }

/-- Invariant of the one-minute run: fixed settings, never paused or snoozed,
and either still accumulating below the buffered limit (58000ms) with the
anchor bounded by `m`, or locked with the frozen value 60000. -/
def C3Inv (m : Nat) (s : ServiceState) : Prop :=
  s.settings = oneMinuteSettings ∧
  s.flags.pausedToday = false ∧
  s.flags.snoozed = false ∧
  ((s.flags.locked = false ∧ s.tk.isLocked = false ∧ s.tk.isActive = true ∧
    (∃ t, s.tk.lastTickTime = some t ∧ t ≤ m) ∧
    s.tk.currentUsageMs < 58000) ∨
   (s.flags.locked = true ∧ s.tk.isActive = false ∧
    s.flags.frozenTimeUsed = some 60000 ∧ 58000 ≤ s.tk.currentUsageMs))

/-- Settings with a ten-minute (600000ms) daily limit (the C8 scenario). -/
def tenMinuteSettings : Settings := { baseSettings with dailyLimitMin := 10 }

/-- The C8 settings with snoozing disallowed. -/
def tenMinuteNoSnooze : Settings := { tenMinuteSettings with allowSnooze := false }

/-- Chain condition on tick environments: times never decrease below the
running anchor and the host never reports idle. -/
def envsChainFrom (m : Nat) : List TickEnv → Bool
  | [] => true
  | e :: rest => decide (m ≤ e.now) && !e.idle && envsChainFrom e.now rest

/-- State right after a successful snooze at time 10000 on a fresh day. -/
def snoozedState : ServiceState :=
  (handleSnoozeRequest 10000 "2024-01-01" (initService baseSettings "2024-01-01")).2

/-- C6 scenario: a snooze granted at 10000, a pause at 20000 that ends the
snooze, then the un-cancelled cooldown timer firing at 310000. -/
def c6Ops : List Op :=
  [ Op.snoozeReq 10000 "2024-01-01"
  , Op.pauseToggle { now := 20000, popupOpen := false, hasActiveXTab := false }
  , Op.snoozeFire 310000 ]

/-- Whether an operation is the firing of the post-snooze cooldown timer. -/
def Op.isSnoozeFire : Op → Bool
  | .snoozeFire _ => true
  | _ => false

/-- Unlocked tracking state with 298000ms accumulated, used for the
UPDATE_SETTINGS scenarios. -/
def c10State : ServiceState :=
  let s := startedService baseSettings 100000
  { s with tk := { s.tk with currentUsageMs := 298000 } }

/-- Fresh started state under the ten-minute limit. -/
def c8Start : ServiceState := startedService tenMinuteSettings 100000

/-- Fresh started state under the ten-minute limit with snoozing disallowed. -/
def c8StartNoSnooze : ServiceState := startedService tenMinuteNoSnooze 100000

/-- Indicator of the nudge threshold having been reached. -/
def c8ind (c : Nat) : Nat := if 480000 ≤ c then 1 else 0

/-- Invariant of the ten-minute nudge run: fixed settings, never paused or
snoozed, and either still accumulating (with the nudged flag tracking whether
the threshold has been crossed and the anchor bounded by `m`) or locked with
the threshold long passed. -/
def C8Inv (m : Nat) (s : ServiceState) : Prop :=
  s.settings = tenMinuteSettings ∧
  s.flags.pausedToday = false ∧
  s.flags.snoozed = false ∧
  ((s.flags.locked = false ∧ s.tk.isLocked = false ∧ s.tk.isActive = true ∧
    (∃ t, s.tk.lastTickTime = some t ∧ t ≤ m) ∧
    s.tk.currentUsageMs < 598000 ∧
    (s.flags.nudged = true ↔ 480000 ≤ s.tk.currentUsageMs)) ∨
   (s.flags.locked = true ∧ s.tk.isActive = false ∧
    480000 ≤ s.tk.currentUsageMs))

/-! ### Theorems -/

/-- Stopping the TimeKeeper never touches the flags record. -/
theorem stop_flags (now : Nat) (s : ServiceState) : (stop now s).flags = s.flags := rfl

/-- Syncing the TimeKeeper with storage never touches the flags record. -/
theorem syncWithStorage_flags (s : ServiceState) :
    (syncWithStorage s).flags = s.flags := by
  unfold syncWithStorage; split <;> rfl

/-- Starting the TimeKeeper never touches the flags record. -/
theorem start_flags (now : Nat) (s : ServiceState) : (start now s).flags = s.flags := by
  unfold start
  split
  · rfl
  split
  · rfl
  · dsimp only
    split
    · exact syncWithStorage_flags s
    split
    · exact syncWithStorage_flags s
    · exact syncWithStorage_flags s

/-- setActive never touches the flags record. -/
theorem setActive_flags (now : Nat) (active : Bool) (s : ServiceState) :
    (setActive now active s).flags = s.flags := by
  unfold setActive
  split
  · rfl
  split
  · rfl
  split
  · rfl
  · rfl

/-- The USER_ACTIVITY handler never touches the flags record. -/
theorem userActivity_flags (now : Nat) (s : ServiceState) :
    (userActivity now s).flags = s.flags := by
  unfold userActivity
  split
  · exact setActive_flags now true _
  · rfl

/-- Tracking recomputation never touches the flags record. -/
theorem updateTrackingImmediate_flags (e : TrackEnv) (s : ServiceState) :
    (updateTrackingImmediate e s).flags = s.flags := by
  unfold updateTrackingImmediate
  dsimp only
  split_ifs <;> simp [stop_flags, start_flags, setActive_flags]

/-- triggerNudge only sets the nudged flag: locked is preserved. -/
theorem triggerNudge_locked (s : ServiceState) :
    (triggerNudge s).2.flags.locked = s.flags.locked := by
  unfold triggerNudge
  split
  · rfl
  · dsimp only

/-- triggerNudge only sets the nudged flag: snoozed is preserved. -/
theorem triggerNudge_snoozed (s : ServiceState) :
    (triggerNudge s).2.flags.snoozed = s.flags.snoozed := by
  unfold triggerNudge
  split
  · rfl
  · dsimp only

/-- triggerLimit leaves the snoozed flag exactly as it was (the source merges
locked/nudged/frozenTimeUsed only). -/
theorem triggerLimit_snoozed (now : Nat) (s : ServiceState) :
    (triggerLimit now s).2.flags.snoozed = s.flags.snoozed := by
  unfold triggerLimit
  split
  · rfl
  · dsimp only
    split_ifs <;> rfl

/-- checkLimits leaves the snoozed flag unchanged. -/
theorem checkLimits_snoozed (now : Nat) (u : DailyUsage) (s : ServiceState) :
    (checkLimits now u s).2.flags.snoozed = s.flags.snoozed := by
  unfold checkLimits
  split
  · rfl
  split
  · dsimp only
    split_ifs <;> simp [triggerLimit_snoozed]
  · dsimp only
    split_ifs <;> simp [triggerLimit_snoozed, triggerNudge_snoozed]

/-- A tick never changes the snoozed flag. -/
theorem tick_snoozed (e : TickEnv) (s : ServiceState) :
    (tick e s).2.flags.snoozed = s.flags.snoozed := by
  unfold tick
  split
  · split
    · dsimp only
      split_ifs <;> simp [checkLimits_snoozed]
    · rfl
  · rfl

/-- When the limit condition over the supplied usage record fails, checkLimits
cannot reach triggerLimit, so the locked flag is preserved. -/
theorem checkLimits_locked_of_not (now : Nat) (u : DailyUsage) (s : ServiceState)
    (h : ¬((if s.flags.snoozed then cooldownOr5 s.settings * 60 * 1000
            else s.settings.dailyLimitMin * 60 * 1000) - 2000 ≤ u.millisActive)) :
    (checkLimits now u s).2.flags.locked = s.flags.locked := by
  unfold checkLimits
  split
  · rfl
  · split
    · rename_i hs
      rw [if_pos hs] at h
      dsimp only
      split
      · rename_i hc; exact absurd hc h
      · rfl
    · rename_i hs
      rw [if_neg hs] at h
      dsimp only
      split_ifs <;>
        first
          | exact absurd (by assumption) h
          | exact triggerNudge_locked s
          | rfl

/-- When tickWouldLock is false, a tick preserves the locked flag. -/
theorem tick_locked_of_not (e : TickEnv) (s : ServiceState)
    (h : tickWouldLock e s = false) :
    (tick e s).2.flags.locked = s.flags.locked := by
  unfold tick
  split
  · rename_i hact
    unfold tickWouldLock at h
    rw [hact] at h
    split
    · rename_i t hlt
      rw [hlt] at h
      simp only [Bool.true_and] at h
      dsimp only
      split
      · rfl
      · rename_i hd
        split
        · rfl
        · rename_i hg
          split
          · rfl
          · rename_i hi
            simp only [Bool.not_eq_true] at hi
            apply checkLimits_locked_of_not
            intro hle
            simp only [Bool.and_eq_false_iff, Bool.not_eq_false', decide_eq_true_eq,
              Bool.not_eq_false, decide_eq_false_iff_not] at h
            rcases h with ((h | h) | h) | h
            · exact hd h
            · exact hg h
            · rw [h] at hi; exact Bool.noConfusion hi
            · exact h hle
    · rfl
  · rfl

/-- A snooze request preserves the lock/snooze exclusion (every failure leaves
the flags alone; success clears locked while setting snoozed). -/
theorem handleSnoozeRequest_excl (now : Nat) (key : String) (s : ServiceState)
    (hinv : lockSnoozeExcl s) :
    lockSnoozeExcl (handleSnoozeRequest now key s).2 := by
  unfold handleSnoozeRequest
  dsimp only
  split_ifs <;> first | exact hinv | simp [lockSnoozeExcl]

/-- The cooldown timer preserves the exclusion: when it fires it clears
snoozed while setting locked. -/
theorem snoozeTimerFire_excl (now : Nat) (s : ServiceState)
    (hinv : lockSnoozeExcl s) :
    lockSnoozeExcl (snoozeTimerFire now s).2 := by
  unfold snoozeTimerFire
  split
  · exact hinv
  · dsimp only
    split
    · exact hinv
    · simp [lockSnoozeExcl, stop_flags]

/-- The exclusion read as an implication. -/
theorem lockSnoozeExcl_imp (s : ServiceState) (hinv : lockSnoozeExcl s) :
    s.flags.locked = true → s.flags.snoozed = false := by
  intro hl
  cases hsz : s.flags.snoozed
  · rfl
  · exact absurd ⟨hl, hsz⟩ hinv

/-- A pause toggle preserves the exclusion: pausing during a snooze clears
both flags, every other path leaves locked and snoozed untouched. -/
theorem togglePause_excl (e : PauseEnv) (s : ServiceState)
    (hinv : lockSnoozeExcl s) :
    lockSnoozeExcl (togglePause e s) := by
  unfold togglePause
  dsimp only
  split_ifs <;>
    first
      | exact hinv
      | (simp [lockSnoozeExcl, stop_flags, start_flags, setActive_flags]
         first
           | exact lockSnoozeExcl_imp s hinv
           | exact hinv)
      | simp [lockSnoozeExcl, stop_flags, start_flags, setActive_flags]

/-- A manual reset preserves the exclusion (it clears every flag). -/
theorem manualReset_excl (now : Nat) (key : String) (te : TrackEnv) (s : ServiceState)
    (hinv : lockSnoozeExcl s) :
    lockSnoozeExcl (manualReset now key te s) := by
  unfold manualReset
  dsimp only
  split_ifs
  · exact hinv
  · simp [lockSnoozeExcl, updateTrackingImmediate_flags]

/-- C1 amended: from any state satisfying the exclusion, every operation
preserves it except a tick whose limit check fires while snoozed (the one
path that sets locked without clearing snoozed). -/
theorem C1_amended (ctx : Ctx) (s : ServiceState) (o : Op)
    (hinv : lockSnoozeExcl s)
    (hexc : ∀ e, o = Op.tick e → ¬(s.flags.snoozed = true ∧ tickWouldLock e s = true)) :
    lockSnoozeExcl (step ctx o s) := by
  cases o with
  | tick e =>
    have hx := hexc e rfl
    show lockSnoozeExcl (tick e s).2
    by_cases hs : s.flags.snoozed = true
    · have hw : tickWouldLock e s = false := by
        cases hwl : tickWouldLock e s
        · rfl
        · exact absurd ⟨hs, hwl⟩ hx
      intro hc
      rcases hc with ⟨h1, h2⟩
      rw [tick_locked_of_not e s hw] at h1
      rw [tick_snoozed e s] at h2
      exact hinv ⟨h1, h2⟩
    · intro hc
      rcases hc with ⟨h1, h2⟩
      rw [tick_snoozed e s] at h2
      exact hs h2
  | snoozeReq now key => exact handleSnoozeRequest_excl now key s hinv
  | snoozeFire now => exact snoozeTimerFire_excl now s hinv
  | pauseToggle e => exact togglePause_excl e s hinv
  | reset now key te => exact manualReset_excl now key te s hinv
  | dailyReset key =>
    show lockSnoozeExcl (checkDailyReset ctx key s).2
    unfold checkDailyReset
    split
    · simp [lockSnoozeExcl, DEFAULT_FLAGS]
    · exact hinv
  | trackingUpdate e =>
    show lockSnoozeExcl (updateTrackingImmediate e s)
    unfold lockSnoozeExcl
    rw [updateTrackingImmediate_flags]
    exact hinv
  | activity now =>
    show lockSnoozeExcl (userActivity now s)
    unfold lockSnoozeExcl
    rw [userActivity_flags]
    exact hinv
  | bypass pc => exact hinv

/-- C1 counterexample: the claim fails on the code.  From a fresh enabled
state, grant a snooze, restart tracking, and let one tick accumulate up to the
cooldown limit minus the buffer: the tick-path limit trigger sets locked while
leaving snoozed set, so both flags are simultaneously true in a reachable
state. -/
theorem C1_counterexample :
    (runOps ctx0 c1Ops (initService baseSettings "2024-01-01")).flags.locked = true ∧
    (runOps ctx0 c1Ops (initService baseSettings "2024-01-01")).flags.snoozed = true := by
  decide

/-- C1 amended witness: the preservation theorem applied to a concrete pause
toggle from the fresh state. -/
theorem C1_amended_witness :
    lockSnoozeExcl (step ctx0
      (Op.pauseToggle { now := 5000, popupOpen := false, hasActiveXTab := false })
      (initService baseSettings "2024-01-01")) :=
  C1_amended ctx0 (initService baseSettings "2024-01-01")
    (Op.pauseToggle { now := 5000, popupOpen := false, hasActiveXTab := false })
    (by unfold lockSnoozeExcl; decide) (fun _ he => Op.noConfusion he)

/-- C2: the bypass handler faults instead of unlocking.  With a passcode
configured, the lock in place and the correct passcode supplied, the handler
throws the clearLockedState ReferenceError (the bare call does not resolve),
so the locked state is never cleared; additionally validatePasscode returns
false when no passcode is configured, so bypass is never validated in the
default configuration either. -/
theorem C2_bypass_faults :
    handleBypassRequest (some "1234") lockedWithPasscode
        = Except.error "ReferenceError: clearLockedState is not defined" ∧
    validatePasscode (some "1234") lockedWithPasscode.settings = true ∧
    lockedWithPasscode.flags.locked = true ∧
    validatePasscode (some "1234") (initService baseSettings "2024-01-01").settings
        = false :=
  ⟨rfl, by decide, by decide, by decide⟩

/-- C5 counterexample: a snooze was granted in the current dateKey (the state
records snoozeUsedToday), yet a further request in the same dateKey fails with
the in-progress reason, not with already-used-today. -/
theorem C5_counterexample :
    snoozedState.flags.snoozeUsedToday = true ∧
    snoozedState.usage.dateKey = "2024-01-01" ∧
    (handleSnoozeRequest 13000 "2024-01-01" snoozedState).1
        = .failure "Snooze in progress" := by
  decide

/-- C5 amended: with the in-progress guard clear and outside the 2s rate
window, a request after a snooze was granted in the current dateKey fails with
the typed reason already-used-today and leaves the flags unchanged; after a
day rollover has reset the flags, a request (guard still clear) succeeds. -/
theorem C5_amended (s : ServiceState) (now : Nat) (key : String)
    (hprog : s.snoozeInProgress = false)
    (hrate : ¬(now - s.lastSnoozeRequest < 2000))
    (hallow : s.settings.allowSnooze = true) :
    ((s.flags.snoozed || s.flags.snoozeUsedToday) = true →
      (handleSnoozeRequest now key s).1 = .failure "Snooze already used today" ∧
      (handleSnoozeRequest now key s).2.flags = s.flags) ∧
    (∀ (ctx : Ctx) (rolloverKey : String), s.usage.dateKey ≠ rolloverKey →
      (handleSnoozeRequest now key (checkDailyReset ctx rolloverKey s).2).1
          = .success) := by
  constructor
  · intro hused
    unfold handleSnoozeRequest
    dsimp only
    rw [hprog]
    simp [hrate, hallow, hused]
  · intro ctx rolloverKey hk
    unfold checkDailyReset
    rw [if_pos hk]
    unfold handleSnoozeRequest
    dsimp only
    rw [hprog]
    simp [hrate, hallow, DEFAULT_FLAGS]

/-- C5 amended witness: the amended theorem applied to the state after the
cooldown timer has fired, then after a rollover. -/
theorem C5_amended_witness :
    (handleSnoozeRequest 400000 "2024-01-01"
        (snoozeTimerFire 310000 snoozedState).2).1
      = .failure "Snooze already used today" ∧
    (handleSnoozeRequest 400000 "2024-01-02"
        (checkDailyReset ctx0 "2024-01-02" (snoozeTimerFire 310000 snoozedState).2).2).1
      = .success :=
  ⟨((C5_amended (snoozeTimerFire 310000 snoozedState).2 400000 "2024-01-01"
      (by decide) (by decide) (by decide)).1 (by decide)).1,
   (C5_amended (snoozeTimerFire 310000 snoozedState).2 400000 "2024-01-02"
      (by decide) (by decide) (by decide)).2 ctx0 "2024-01-02" (by decide)⟩

/-- C6: the post-snooze cooldown timer is not cancelable.  After a snooze at
10000 and a pause at 20000 (which ends the snooze: snoozed and locked
cleared, pausedToday set), the timer scheduled by the snooze is still pending
and, once its time arrives, fires anyway: the final state is locked with the
frozen cooldown value while still paused. -/
theorem C6_timer_fires_after_pause :
    (runOps ctx0 (c6Ops.take 2) (initService baseSettings "2024-01-01")).flags.snoozed
        = false ∧
    (runOps ctx0 (c6Ops.take 2) (initService baseSettings "2024-01-01")).flags.pausedToday
        = true ∧
    (runOps ctx0 (c6Ops.take 2) (initService baseSettings "2024-01-01")).snoozeTimers
        = [(310000, 300000)] ∧
    (runOps ctx0 c6Ops (initService baseSettings "2024-01-01")).flags.locked = true ∧
    (runOps ctx0 c6Ops (initService baseSettings "2024-01-01")).flags.pausedToday = true ∧
    (runOps ctx0 c6Ops (initService baseSettings "2024-01-01")).flags.frozenTimeUsed
        = some 300000 := by
  decide

/-- C7: checkDailyReset is idempotent.  On a dateKey mismatch it replaces the
usage and flags records with their defaults for the new date and returns true;
a second call with the same current date (and any call whose stored dateKey
already matches) is a no-op returning false. -/
theorem C7_checkDailyReset_idempotent (ctx : Ctx) (s : ServiceState) (key : String)
    (h : s.usage.dateKey ≠ key) :
    (checkDailyReset ctx key s).1 = true ∧
    (checkDailyReset ctx key s).2.usage
        = { millisActive := 0, lastTickAt := ctx.moduleLoadTime, dateKey := key } ∧
    (checkDailyReset ctx key s).2.flags = DEFAULT_FLAGS ∧
    checkDailyReset ctx key (checkDailyReset ctx key s).2
        = (false, (checkDailyReset ctx key s).2) ∧
    (∀ s2 : ServiceState, s2.usage.dateKey = key →
        checkDailyReset ctx key s2 = (false, s2)) := by
  refine ⟨?_, ?_, ?_, ?_, ?_⟩
  · simp [checkDailyReset, h]
  · simp [checkDailyReset, h, DEFAULT_USAGE]
  · simp [checkDailyReset, h]
  · simp [checkDailyReset, h, DEFAULT_USAGE]
  · intro s2 h2
    simp [checkDailyReset, h2]

/-- C7 witness: the idempotence theorem applied to a concrete rollover from
2024-01-01 to 2024-01-02. -/
theorem C7_witness :
    (checkDailyReset ctx0 "2024-01-02" (initService baseSettings "2024-01-01")).1
        = true :=
  (C7_checkDailyReset_idempotent ctx0 (initService baseSettings "2024-01-01")
    "2024-01-02" (by decide)).1

/-- C4: effects of a successful snooze.  Under the request guards (no snooze
in progress, outside the 2s rate window, snooze allowed, not yet snoozed or
used today) the request succeeds, zeroes the stored and in-memory usage,
clears locked and nudged, sets snoozed and snoozeUsedToday, and schedules the
cooldown timer; once that timer's delay has elapsed, firing it locks the state
with the frozen value equal to cooldownMin multiplied by 60000. -/
theorem C4_snooze_effects (s : ServiceState) (now : Nat) (key : String)
    (hprog : s.snoozeInProgress = false)
    (hrate : ¬(now - s.lastSnoozeRequest < 2000))
    (hallow : s.settings.allowSnooze = true)
    (hsn : s.flags.snoozed = false)
    (hused : s.flags.snoozeUsedToday = false)
    (hcd : s.settings.cooldownMin ≠ 0)
    (htimers : s.snoozeTimers = []) :
    (handleSnoozeRequest now key s).1 = .success ∧
    (handleSnoozeRequest now key s).2.usage.millisActive = 0 ∧
    (handleSnoozeRequest now key s).2.tk.currentUsageMs = 0 ∧
    (handleSnoozeRequest now key s).2.flags.locked = false ∧
    (handleSnoozeRequest now key s).2.flags.nudged = false ∧
    (handleSnoozeRequest now key s).2.flags.snoozed = true ∧
    (handleSnoozeRequest now key s).2.flags.snoozeUsedToday = true ∧
    (handleSnoozeRequest now key s).2.snoozeTimers
        = [(now + s.settings.cooldownMin * 60 * 1000,
            s.settings.cooldownMin * 60 * 1000)] ∧
    (∀ t2 : Nat, ¬(t2 < now + s.settings.cooldownMin * 60 * 1000) →
      (snoozeTimerFire t2 (handleSnoozeRequest now key s).2).2.flags.locked = true ∧
      (snoozeTimerFire t2 (handleSnoozeRequest now key s).2).2.flags.snoozed = false ∧
      (snoozeTimerFire t2 (handleSnoozeRequest now key s).2).2.flags.frozenTimeUsed
          = some (s.settings.cooldownMin * 60 * 1000)) := by
  refine ⟨?_, ?_, ?_, ?_, ?_, ?_, ?_, ?_, ?_⟩ <;>
    first
      | (simp [handleSnoozeRequest, stop, hprog, hrate, hallow, hsn, hused,
               cooldownOr5, hcd, htimers]
         done)
      | (intro t2 ht2
         simp [handleSnoozeRequest, snoozeTimerFire, stop, hprog, hrate, hallow,
               hsn, hused, cooldownOr5, hcd, htimers, ht2]
         done)

/-- C4 witness: the snooze-effects theorem applied to the fresh state with the
default 5-minute cooldown; the frozen value after the timer fires is 300000. -/
theorem C4_witness :
    (snoozeTimerFire 310000
        (handleSnoozeRequest 10000 "2024-01-01"
          (initService baseSettings "2024-01-01")).2).2.flags.frozenTimeUsed
      = some 300000 :=
  (((C4_snooze_effects (initService baseSettings "2024-01-01") 10000 "2024-01-01"
      (by decide) (by decide) (by decide) (by decide) (by decide) (by decide)
      (by decide)).2.2.2.2.2.2.2.2) 310000 (by decide)).2.2

/-- Stopping the TimeKeeper never touches the snooze in-progress guard. -/
theorem stop_inProgress (now : Nat) (s : ServiceState) :
    (stop now s).snoozeInProgress = s.snoozeInProgress := rfl

/-- Syncing with storage never touches the in-progress guard. -/
theorem syncWithStorage_inProgress (s : ServiceState) :
    (syncWithStorage s).snoozeInProgress = s.snoozeInProgress := by
  unfold syncWithStorage; split <;> rfl

/-- Starting the TimeKeeper never touches the in-progress guard. -/
theorem start_inProgress (now : Nat) (s : ServiceState) :
    (start now s).snoozeInProgress = s.snoozeInProgress := by
  unfold start
  split
  · rfl
  split
  · rfl
  · dsimp only
    split
    · exact syncWithStorage_inProgress s
    split
    · exact syncWithStorage_inProgress s
    · exact syncWithStorage_inProgress s

/-- setActive never touches the in-progress guard. -/
theorem setActive_inProgress (now : Nat) (active : Bool) (s : ServiceState) :
    (setActive now active s).snoozeInProgress = s.snoozeInProgress := by
  unfold setActive
  split
  · rfl
  split
  · rfl
  split
  · rfl
  · rfl

/-- The USER_ACTIVITY handler never touches the in-progress guard. -/
theorem userActivity_inProgress (now : Nat) (s : ServiceState) :
    (userActivity now s).snoozeInProgress = s.snoozeInProgress := by
  unfold userActivity
  split
  · exact setActive_inProgress now true _
  · rfl

/-- Tracking recomputation never touches the in-progress guard. -/
theorem updateTrackingImmediate_inProgress (e : TrackEnv) (s : ServiceState) :
    (updateTrackingImmediate e s).snoozeInProgress = s.snoozeInProgress := by
  unfold updateTrackingImmediate
  dsimp only
  split_ifs <;> simp [stop_inProgress, start_inProgress, setActive_inProgress]

/-- A pause toggle never touches the in-progress guard. -/
theorem togglePause_inProgress (e : PauseEnv) (s : ServiceState) :
    (togglePause e s).snoozeInProgress = s.snoozeInProgress := by
  unfold togglePause
  dsimp only
  split_ifs <;> simp [stop_inProgress, start_inProgress, setActive_inProgress]

/-- A manual reset never touches the in-progress guard. -/
theorem manualReset_inProgress (now : Nat) (key : String) (te : TrackEnv)
    (s : ServiceState) :
    (manualReset now key te s).snoozeInProgress = s.snoozeInProgress := by
  unfold manualReset
  dsimp only
  split_ifs <;> simp [updateTrackingImmediate_inProgress, stop_inProgress]

/-- triggerNudge never touches the in-progress guard. -/
theorem triggerNudge_inProgress (s : ServiceState) :
    (triggerNudge s).2.snoozeInProgress = s.snoozeInProgress := by
  unfold triggerNudge
  split
  · rfl
  · dsimp only

/-- triggerLimit never touches the in-progress guard. -/
theorem triggerLimit_inProgress (now : Nat) (s : ServiceState) :
    (triggerLimit now s).2.snoozeInProgress = s.snoozeInProgress := by
  unfold triggerLimit
  split
  · rfl
  · dsimp only
    split_ifs <;> rfl

/-- checkLimits never touches the in-progress guard. -/
theorem checkLimits_inProgress (now : Nat) (u : DailyUsage) (s : ServiceState) :
    (checkLimits now u s).2.snoozeInProgress = s.snoozeInProgress := by
  unfold checkLimits
  split
  · rfl
  split
  · dsimp only
    split_ifs <;> simp [triggerLimit_inProgress]
  · dsimp only
    split_ifs <;> simp [triggerLimit_inProgress, triggerNudge_inProgress]

/-- A tick never touches the in-progress guard. -/
theorem tick_inProgress (e : TickEnv) (s : ServiceState) :
    (tick e s).2.snoozeInProgress = s.snoozeInProgress := by
  unfold tick
  split
  · split
    · dsimp only
      split_ifs <;> simp [checkLimits_inProgress]
    · rfl
  · rfl

/-- Every handled snooze request leaves the in-progress guard set. -/
theorem handleSnoozeRequest_inProgress (now : Nat) (key : String) (s : ServiceState) :
    (handleSnoozeRequest now key s).2.snoozeInProgress = true := by
  unfold handleSnoozeRequest
  dsimp only
  split_ifs <;> first | assumption | rfl

/-- Every operation other than the cooldown timer preserves a set in-progress
guard. -/
theorem step_inProgress (ctx : Ctx) (o : Op) (s : ServiceState)
    (hno : o.isSnoozeFire = false) (hs : s.snoozeInProgress = true) :
    (step ctx o s).snoozeInProgress = true := by
  cases o with
  | tick e => rw [show step ctx (Op.tick e) s = (tick e s).2 from rfl,
      tick_inProgress]; exact hs
  | snoozeReq now key => exact handleSnoozeRequest_inProgress now key s
  | snoozeFire now => exact Bool.noConfusion hno
  | pauseToggle e => rw [show step ctx (Op.pauseToggle e) s = togglePause e s from rfl,
      togglePause_inProgress]; exact hs
  | reset now key te =>
    rw [show step ctx (Op.reset now key te) s = manualReset now key te s from rfl,
      manualReset_inProgress]; exact hs
  | dailyReset key =>
    show (checkDailyReset ctx key s).2.snoozeInProgress = true
    unfold checkDailyReset
    split <;> exact hs
  | trackingUpdate e =>
    rw [show step ctx (Op.trackingUpdate e) s = updateTrackingImmediate e s from rfl,
      updateTrackingImmediate_inProgress]; exact hs
  | activity now =>
    rw [show step ctx (Op.activity now) s = userActivity now s from rfl,
      userActivity_inProgress]; exact hs
  | bypass pc => exact hs

/-- C9: the snooze in-progress guard wedges the handler.  A request arriving
with the guard set returns the in-progress failure and changes nothing; every
handled request (successful or failed for any reason) leaves the guard set;
no operation other than the cooldown timer clears it; hence after any handled
request, a later request — with any sequence of non-timer operations in
between — fails with the in-progress reason rather than its own. -/
theorem C9_guard_wedges :
    (∀ (s : ServiceState) (now : Nat) (key : String),
        s.snoozeInProgress = true →
        handleSnoozeRequest now key s = (.failure "Snooze in progress", s)) ∧
    (∀ (s : ServiceState) (now : Nat) (key : String),
        (handleSnoozeRequest now key s).2.snoozeInProgress = true) ∧
    (∀ (ctx : Ctx) (ops : List Op) (s : ServiceState),
        (∀ o ∈ ops, o.isSnoozeFire = false) → s.snoozeInProgress = true →
        (runOps ctx ops s).snoozeInProgress = true) ∧
    (∀ (ctx : Ctx) (ops : List Op) (s : ServiceState) (now now2 : Nat)
        (key key2 : String),
        (∀ o ∈ ops, o.isSnoozeFire = false) →
        (handleSnoozeRequest now2 key2
            (runOps ctx ops (handleSnoozeRequest now key s).2)).1
          = .failure "Snooze in progress") := by
  have ha : ∀ (s : ServiceState) (now : Nat) (key : String),
      s.snoozeInProgress = true →
      handleSnoozeRequest now key s = (.failure "Snooze in progress", s) := by
    intro s now key hs
    unfold handleSnoozeRequest
    rw [hs]
    simp
  have hc : ∀ (ctx : Ctx) (ops : List Op) (s : ServiceState),
      (∀ o ∈ ops, o.isSnoozeFire = false) → s.snoozeInProgress = true →
      (runOps ctx ops s).snoozeInProgress = true := by
    intro ctx ops
    induction ops with
    | nil => intro s _ hs; exact hs
    | cons o rest ih =>
      intro s hall hs
      have h1 : (step ctx o s).snoozeInProgress = true :=
        step_inProgress ctx o s (hall o (List.mem_cons_self o rest)) hs
      exact ih (step ctx o s) (fun o' ho' => hall o' (List.mem_cons_of_mem o ho')) h1
  refine ⟨ha, fun s now key => handleSnoozeRequest_inProgress now key s, hc, ?_⟩
  intro ctx ops s now now2 key key2 hall
  have h2 : (runOps ctx ops (handleSnoozeRequest now key s).2).snoozeInProgress = true :=
    hc ctx ops _ hall (handleSnoozeRequest_inProgress now key s)
  rw [ha _ now2 key2 h2]

/-- C9 witness: a snooze request rejected because snoozing is disallowed
wedges the guard, so a later request fails with the in-progress reason. -/
theorem C9_witness :
    (handleSnoozeRequest 20000 "2024-01-01"
        (runOps ctx0 [Op.tick { now := 15000, idle := false }]
          (handleSnoozeRequest 10000 "2024-01-01"
            (initService { baseSettings with allowSnooze := false }
              "2024-01-01")).2)).1
      = .failure "Snooze in progress" :=
  C9_guard_wedges.2.2.2 ctx0 [Op.tick { now := 15000, idle := false }]
    (initService { baseSettings with allowSnooze := false } "2024-01-01")
    10000 20000 "2024-01-01" "2024-01-01" (by decide)

/-- triggerNudge never touches the settings. -/
theorem triggerNudge_settings (s : ServiceState) :
    (triggerNudge s).2.settings = s.settings := by
  unfold triggerNudge
  split
  · rfl
  · dsimp only

/-- triggerNudge never touches the TimeKeeper. -/
theorem triggerNudge_tk (s : ServiceState) :
    (triggerNudge s).2.tk = s.tk := by
  unfold triggerNudge
  split
  · rfl
  · dsimp only

/-- triggerNudge never touches the pausedToday flag. -/
theorem triggerNudge_paused (s : ServiceState) :
    (triggerNudge s).2.flags.pausedToday = s.flags.pausedToday := by
  unfold triggerNudge
  split
  · rfl
  · dsimp only

/-- When the effective-limit condition holds over the in-memory counter and
the guards pass, triggerLimit locks, freezes the effective limit, and stops
the TimeKeeper. -/
theorem triggerLimit_locks (now : Nat) (s : ServiceState)
    (henabled : s.settings.enabled = true) (hl : s.flags.locked = false)
    (hp : s.flags.pausedToday = false)
    (hcond : (if s.flags.snoozed then cooldownOr5 s.settings * 60 * 1000
              else s.settings.dailyLimitMin * 60 * 1000) - 2000
        ≤ s.tk.currentUsageMs) :
    (triggerLimit now s).2.flags.locked = true ∧
    (triggerLimit now s).2.flags.frozenTimeUsed
        = some (if s.flags.snoozed then cooldownOr5 s.settings * 60 * 1000
                else s.settings.dailyLimitMin * 60 * 1000) ∧
    (triggerLimit now s).2.tk.running = false ∧
    (triggerLimit now s).2.tk.isActive = false := by
  unfold triggerLimit
  simp [henabled, hl, hp, hcond, stop]

/-- When the effective-limit condition holds over both the supplied usage
record and the in-memory counter, checkLimits locks with the frozen value
equal to the effective limit and stops the TimeKeeper. -/
theorem checkLimits_locks (now : Nat) (u : DailyUsage) (s : ServiceState)
    (henabled : s.settings.enabled = true) (hl : s.flags.locked = false)
    (hp : s.flags.pausedToday = false)
    (hcondU : (if s.flags.snoozed then cooldownOr5 s.settings * 60 * 1000
               else s.settings.dailyLimitMin * 60 * 1000) - 2000
        ≤ u.millisActive)
    (hcondC : (if s.flags.snoozed then cooldownOr5 s.settings * 60 * 1000
               else s.settings.dailyLimitMin * 60 * 1000) - 2000
        ≤ s.tk.currentUsageMs) :
    (checkLimits now u s).2.flags.locked = true ∧
    (checkLimits now u s).2.flags.frozenTimeUsed
        = some (if s.flags.snoozed then cooldownOr5 s.settings * 60 * 1000
                else s.settings.dailyLimitMin * 60 * 1000) ∧
    (checkLimits now u s).2.tk.running = false ∧
    (checkLimits now u s).2.tk.isActive = false := by
  unfold checkLimits
  rw [show (!s.settings.enabled || s.flags.pausedToday || s.flags.locked) = false by
    rw [henabled, hl, hp]; rfl]
  simp only [Bool.false_eq_true, if_false]
  split
  · rename_i hsz
    rw [if_pos hsz] at hcondU hcondC
    rw [if_pos hcondU]
    have := triggerLimit_locks now s henabled hl hp (by rw [if_pos hsz]; exact hcondC)
    rw [if_pos hsz] at this
    exact this
  · rename_i hsz
    rw [if_neg hsz] at hcondU hcondC
    rw [if_pos hcondU]
    split
    · have hc2 : (if (triggerNudge s).2.flags.snoozed then
          cooldownOr5 (triggerNudge s).2.settings * 60 * 1000
          else (triggerNudge s).2.settings.dailyLimitMin * 60 * 1000) - 2000
            ≤ (triggerNudge s).2.tk.currentUsageMs := by
        rw [triggerNudge_snoozed, triggerNudge_settings, triggerNudge_tk,
          if_neg hsz]
        exact hcondC
      have := triggerLimit_locks now (triggerNudge s).2
        (by rw [triggerNudge_settings]; exact henabled)
        (by rw [triggerNudge_locked]; exact hl)
        (by rw [triggerNudge_paused]; exact hp) hc2
      rw [triggerNudge_snoozed, triggerNudge_settings, if_neg hsz] at this
      exact this
    · have := triggerLimit_locks now s henabled hl hp (by rw [if_neg hsz]; exact hcondC)
      rw [if_neg hsz] at this
      exact this

/-- An inactive TimeKeeper ignores ticks entirely. -/
theorem tick_inactive (e : TickEnv) (s : ServiceState)
    (h : s.tk.isActive = false) : tick e s = ([], s) := by
  simp [tick, h]

/-- Splitting a tick run at the last environment. -/
theorem runTicks_append_single (envs : List TickEnv) (e : TickEnv)
    (s : ServiceState) :
    runTicks (envs ++ [e]) s = (tick e (runTicks envs s)).2 := by
  simp [runTicks, List.foldl_append]

/-- triggerLimit never touches the settings. -/
theorem triggerLimit_settings (now : Nat) (s : ServiceState) :
    (triggerLimit now s).2.settings = s.settings := by
  unfold triggerLimit
  split
  · rfl
  · dsimp only
    split_ifs <;> rfl

/-- triggerLimit never touches the pausedToday flag. -/
theorem triggerLimit_paused (now : Nat) (s : ServiceState) :
    (triggerLimit now s).2.flags.pausedToday = s.flags.pausedToday := by
  unfold triggerLimit
  split
  · rfl
  · dsimp only
    split_ifs <;> rfl

/-- triggerLimit never changes the in-memory usage counter. -/
theorem triggerLimit_cum (now : Nat) (s : ServiceState) :
    (triggerLimit now s).2.tk.currentUsageMs = s.tk.currentUsageMs := by
  unfold triggerLimit
  split
  · rfl
  · dsimp only
    split_ifs <;> rfl

/-- checkLimits never touches the settings. -/
theorem checkLimits_settings (now : Nat) (u : DailyUsage) (s : ServiceState) :
    (checkLimits now u s).2.settings = s.settings := by
  unfold checkLimits
  split
  · rfl
  split
  · dsimp only
    split_ifs <;> simp [triggerLimit_settings]
  · dsimp only
    split_ifs <;> simp [triggerLimit_settings, triggerNudge_settings]

/-- checkLimits never touches the pausedToday flag. -/
theorem checkLimits_paused (now : Nat) (u : DailyUsage) (s : ServiceState) :
    (checkLimits now u s).2.flags.pausedToday = s.flags.pausedToday := by
  unfold checkLimits
  split
  · rfl
  split
  · dsimp only
    split_ifs <;> simp [triggerLimit_paused]
  · dsimp only
    split_ifs <;> simp [triggerLimit_paused, triggerNudge_paused]

/-- checkLimits never changes the in-memory usage counter. -/
theorem checkLimits_cum (now : Nat) (u : DailyUsage) (s : ServiceState) :
    (checkLimits now u s).2.tk.currentUsageMs = s.tk.currentUsageMs := by
  unfold checkLimits
  split
  · rfl
  split
  · dsimp only
    split_ifs <;> simp [triggerLimit_cum]
  · dsimp only
    split_ifs <;> simp [triggerLimit_cum, triggerNudge_tk]

/-- When the limit condition over the supplied usage record fails, checkLimits
leaves the whole TimeKeeper untouched. -/
theorem checkLimits_tk_of_not (now : Nat) (u : DailyUsage) (s : ServiceState)
    (h : ¬((if s.flags.snoozed then cooldownOr5 s.settings * 60 * 1000
            else s.settings.dailyLimitMin * 60 * 1000) - 2000 ≤ u.millisActive)) :
    (checkLimits now u s).2.tk = s.tk := by
  unfold checkLimits
  split
  · rfl
  · split
    · rename_i hs
      rw [if_pos hs] at h
      dsimp only
      split
      · rename_i hc; exact absurd hc h
      · rfl
    · rename_i hs
      rw [if_neg hs] at h
      dsimp only
      split_ifs <;>
        first
          | exact absurd (by assumption) h
          | exact triggerNudge_tk s
          | rfl

/-- checkLimits preserves the one-minute invariant when supplied with the
freshly accumulated usage record. -/
theorem c3_checkLimits_inv (now m : Nat) (u : DailyUsage) (s : ServiceState)
    (hset : s.settings = oneMinuteSettings) (hp : s.flags.pausedToday = false)
    (hsz : s.flags.snoozed = false) (hl : s.flags.locked = false)
    (htkl : s.tk.isLocked = false) (hia : s.tk.isActive = true)
    (hlt : ∃ t, s.tk.lastTickTime = some t ∧ t ≤ m)
    (hu : u.millisActive = s.tk.currentUsageMs) :
    C3Inv m (checkLimits now u s).2 := by
  have heff : (if s.flags.snoozed then cooldownOr5 s.settings * 60 * 1000
      else s.settings.dailyLimitMin * 60 * 1000) - 2000 = 58000 := by
    rw [hsz, hset]
    rfl
  by_cases hlim : 58000 ≤ s.tk.currentUsageMs
  · have henabled : s.settings.enabled = true := by rw [hset]; rfl
    have hcl := checkLimits_locks now u s henabled hl hp
      (by rw [heff, hu]; exact hlim) (by rw [heff]; exact hlim)
    refine ⟨?_, ?_, ?_, Or.inr ⟨hcl.1, hcl.2.2.2, ?_, ?_⟩⟩
    · rw [checkLimits_settings]; exact hset
    · rw [checkLimits_paused]; exact hp
    · rw [checkLimits_snoozed]; exact hsz
    · rw [hcl.2.1, hsz, hset]; rfl
    · rw [checkLimits_cum]; exact hlim
  · have hnot : ¬((if s.flags.snoozed then cooldownOr5 s.settings * 60 * 1000
        else s.settings.dailyLimitMin * 60 * 1000) - 2000 ≤ u.millisActive) := by
      rw [heff, hu]; exact hlim
    have htk := checkLimits_tk_of_not now u s hnot
    refine ⟨?_, ?_, ?_, Or.inl ⟨?_, ?_, ?_, ?_, ?_⟩⟩
    · rw [checkLimits_settings]; exact hset
    · rw [checkLimits_paused]; exact hp
    · rw [checkLimits_snoozed]; exact hsz
    · rw [checkLimits_locked_of_not now u s hnot]; exact hl
    · rw [htk]; exact htkl
    · rw [htk]; exact hia
    · rw [htk]; exact hlt
    · rw [htk]; exact Nat.lt_of_not_le hlim

/-- One tick preserves the one-minute invariant. -/
theorem c3_tick (m : Nat) (e : TickEnv) (s : ServiceState)
    (hinv : C3Inv m s) (hm : m ≤ e.now) (hidle : e.idle = false) :
    C3Inv e.now (tick e s).2 := by
  obtain ⟨hset, hp, hsz, hphase⟩ := hinv
  rcases hphase with ⟨hl, htkl, hia, ⟨t, hlt, htm⟩, hcum⟩ | ⟨hl, hia, hfr, hcum⟩
  · have henabled : s.settings.enabled = true := by rw [hset]; rfl
    unfold tick
    simp only [hia, hlt]
    by_cases hd : e.now - t < 100
    · rw [if_pos hd]
      exact ⟨hset, hp, hsz,
        Or.inl ⟨hl, htkl, hia, ⟨t, hlt, le_trans htm hm⟩, hcum⟩⟩
    · rw [if_neg hd]
      rw [show (s.tk.isLocked || !s.settings.enabled || s.flags.locked
          || s.flags.pausedToday) = false by rw [htkl, henabled, hl, hp]; rfl]
      simp only [Bool.false_eq_true, if_false, hidle]
      exact c3_checkLimits_inv e.now e.now _ _ hset hp hsz hl htkl rfl
        ⟨e.now, rfl, Nat.le_refl e.now⟩ rfl
  · rw [tick_inactive e s hia]
    exact ⟨hset, hp, hsz, Or.inr ⟨hl, hia, hfr, hcum⟩⟩

/-- A chained tick run preserves the one-minute invariant. -/
theorem c3_run (envs : List TickEnv) (m : Nat) (s : ServiceState)
    (hinv : C3Inv m s) (hchain : envsChainFrom m envs = true) :
    ∃ m2, C3Inv m2 (runTicks envs s) := by
  induction envs generalizing m s with
  | nil => exact ⟨m, hinv⟩
  | cons e rest ih =>
    simp only [envsChainFrom, Bool.and_eq_true, decide_eq_true_eq,
      Bool.not_eq_true'] at hchain
    obtain ⟨⟨hm, hidle⟩, hrest⟩ := hchain
    have h1 := c3_tick m e s hinv hm hidle
    have : runTicks (e :: rest) s = runTicks rest (tick e s).2 := by
      simp [runTicks]
    rw [this]
    exact ih e.now (tick e s).2 h1 hrest

/-- C3: a tick that accumulates up to the effective limit minus the 2000ms
buffer (extension enabled, not paused, not locked) locks the state and
freezes the displayed usage at exactly the effective limit; concretely, under
a one-minute daily limit, every chained tick run from the started state whose
accumulated counter reaches at least 58000ms (58s of continuously accumulated
active ticking) ends locked with the frozen value 60000. -/
theorem C3_buffer_lock :
    (∀ (s : ServiceState) (e : TickEnv) (t : Nat),
      s.tk.isActive = true → s.tk.lastTickTime = some t →
      ¬(e.now - t < 100) → e.idle = false →
      s.tk.isLocked = false → s.settings.enabled = true →
      s.flags.locked = false → s.flags.pausedToday = false →
      (if s.flags.snoozed then cooldownOr5 s.settings * 60 * 1000
       else s.settings.dailyLimitMin * 60 * 1000) - 2000
          ≤ s.tk.currentUsageMs + (e.now - t) →
      (tick e s).2.flags.locked = true ∧
      (tick e s).2.flags.frozenTimeUsed
          = some (if s.flags.snoozed then cooldownOr5 s.settings * 60 * 1000
                  else s.settings.dailyLimitMin * 60 * 1000) ∧
      (tick e s).2.tk.running = false) ∧
    (∀ envs : List TickEnv,
      envsChainFrom 100000 envs = true →
      58000 ≤ (runTicks envs (startedService oneMinuteSettings 100000)).tk.currentUsageMs →
      (runTicks envs (startedService oneMinuteSettings 100000)).flags.locked = true ∧
      (runTicks envs (startedService oneMinuteSettings 100000)).flags.frozenTimeUsed
          = some 60000) := by
  constructor
  · intro s e t hia hlt hd hidle htkl henabled hl hp hbuf
    unfold tick
    split
    case isFalse hia2 => exact absurd hia hia2
    split
    case h_2 hlt2 => rw [hlt] at hlt2; exact Option.noConfusion hlt2
    case h_1 t' hlt2 =>
    have ht : t = t' := Option.some.inj (hlt.symm.trans hlt2)
    subst ht
    dsimp only
    rw [if_neg hd]
    rw [show (s.tk.isLocked || !s.settings.enabled || s.flags.locked
        || s.flags.pausedToday) = false by rw [htkl, henabled, hl, hp]; rfl]
    simp only [Bool.false_eq_true, if_false, hidle]
    have := checkLimits_locks e.now
      { s.usage with
        millisActive := s.tk.currentUsageMs + (e.now - t), lastTickAt := e.now }
      { s with
        usage := if s.tk.writeBackoffUntil ≤ e.now
            && s.tk.usageSaveInterval ≤ e.now - s.tk.lastUsageSave then
            { s.usage with
              millisActive := s.tk.currentUsageMs + (e.now - t), lastTickAt := e.now }
          else s.usage
        tk := { s.tk with
                currentUsageMs := s.tk.currentUsageMs + (e.now - t)
                lastUsageSave := if s.tk.writeBackoffUntil ≤ e.now
                    && s.tk.usageSaveInterval ≤ e.now - s.tk.lastUsageSave then e.now
                  else s.tk.lastUsageSave
                writeBackoffUntil := if s.tk.writeBackoffUntil ≤ e.now
                    && s.tk.usageSaveInterval ≤ e.now - s.tk.lastUsageSave then 0
                  else s.tk.writeBackoffUntil
                lastTickTime := some e.now } }
      henabled hl hp hbuf hbuf
    exact ⟨this.1, this.2.1, this.2.2.1⟩
  · intro envs hchain hcum
    have hinv0 : C3Inv 100000 (startedService oneMinuteSettings 100000) := by
      refine ⟨rfl, rfl, rfl, Or.inl ⟨rfl, rfl, rfl, ⟨100000, rfl, Nat.le_refl _⟩, ?_⟩⟩
      decide
    obtain ⟨m2, hfin⟩ := c3_run envs 100000 _ hinv0 hchain
    obtain ⟨_, _, _, hphase⟩ := hfin
    rcases hphase with ⟨_, _, _, _, hlt58⟩ | ⟨hl, _, hfr, _⟩
    · exact absurd hcum (Nat.not_le_of_lt hlt58)
    · exact ⟨hl, hfr⟩

/-- C3 witness: the lock theorem applied to a single concrete tick reaching
58000ms under the one-minute limit, and the run part applied to a concrete
chained run accumulating exactly 58000ms. -/
theorem C3_witness :
    (tick { now := 158000, idle := false }
        (startedService oneMinuteSettings 100000)).2.flags.locked = true ∧
    (runTicks [{ now := 129000, idle := false }, { now := 158000, idle := false }]
        (startedService oneMinuteSettings 100000)).flags.frozenTimeUsed
      = some 60000 :=
  ⟨(C3_buffer_lock.1 (startedService oneMinuteSettings 100000)
      { now := 158000, idle := false } 100000 (by decide) (by decide) (by decide)
      (by decide) (by decide) (by decide) (by decide) (by decide) (by decide)).1,
   (C3_buffer_lock.2
      [{ now := 129000, idle := false }, { now := 158000, idle := false }]
      (by decide) (by decide)).2⟩

/-- C10: lowering the daily limit below the (buffered) accumulated usage via
UPDATE_SETTINGS locks immediately with the frozen value equal to the new
limit in milliseconds and the clock stopped; but when the same update also
changes cooldownMin, the usage counter is reset to 0 and the immediate lock
is cancelled, leaving the system unlocked. -/
theorem C10_settings_lock_and_cancel (s : ServiceState) (now : Nat) (key : String)
    (L c : Nat)
    (hrate : ¬(now - s.lastSettingsUpdate < 1000))
    (hL : s.settings.dailyLimitMin ≠ L)
    (hexceed : L * 60 * 1000 - 2000 ≤ s.tk.currentUsageMs)
    (hc : s.settings.cooldownMin ≠ c)
    (hlocked : s.flags.locked = false) :
    ((handleUpdateSettings now key
        { dailyLimitMin := some L, cooldownMin := none, enabled := none
          resetUsage := false } s).flags.locked = true ∧
     (handleUpdateSettings now key
        { dailyLimitMin := some L, cooldownMin := none, enabled := none
          resetUsage := false } s).flags.frozenTimeUsed = some (L * 60 * 1000) ∧
     (handleUpdateSettings now key
        { dailyLimitMin := some L, cooldownMin := none, enabled := none
          resetUsage := false } s).tk.isLocked = true ∧
     (handleUpdateSettings now key
        { dailyLimitMin := some L, cooldownMin := none, enabled := none
          resetUsage := false } s).tk.running = false ∧
     (handleUpdateSettings now key
        { dailyLimitMin := some L, cooldownMin := none, enabled := none
          resetUsage := false } s).settings.dailyLimitMin = L) ∧
    ((handleUpdateSettings now key
        { dailyLimitMin := some L, cooldownMin := some c, enabled := none
          resetUsage := false } s).usage.millisActive = 0 ∧
     (handleUpdateSettings now key
        { dailyLimitMin := some L, cooldownMin := some c, enabled := none
          resetUsage := false } s).tk.currentUsageMs = 0 ∧
     (handleUpdateSettings now key
        { dailyLimitMin := some L, cooldownMin := some c, enabled := none
          resetUsage := false } s).flags = s.flags ∧
     (handleUpdateSettings now key
        { dailyLimitMin := some L, cooldownMin := some c, enabled := none
          resetUsage := false } s).flags.locked = false ∧
     (handleUpdateSettings now key
        { dailyLimitMin := some L, cooldownMin := some c, enabled := none
          resetUsage := false } s).tk.isLocked = false ∧
     (handleUpdateSettings now key
        { dailyLimitMin := some L, cooldownMin := some c, enabled := none
          resetUsage := false } s).settings.cooldownMin = c) := by
  refine ⟨⟨?_, ?_, ?_, ?_, ?_⟩, ⟨?_, ?_, ?_, ?_, ?_, ?_⟩⟩ <;>
    simp [handleUpdateSettings, stop, hrate, hL, hexceed, hc, hlocked]

/-- C10 witness: the theorem applied at 298000ms of usage, lowering the limit
from 30 to 5 minutes, with and without a cooldown change. -/
theorem C10_witness :
    (handleUpdateSettings 5000 "2024-01-01"
        { dailyLimitMin := some 5, cooldownMin := none, enabled := none
          resetUsage := false } c10State).flags.frozenTimeUsed = some 300000 ∧
    (handleUpdateSettings 5000 "2024-01-01"
        { dailyLimitMin := some 5, cooldownMin := some 10, enabled := none
          resetUsage := false } c10State).tk.isLocked = false := by
  have h := C10_settings_lock_and_cancel c10State 5000 "2024-01-01" 5 10
    (by decide) (by decide) (by decide) (by decide) (by decide)
  exact ⟨h.1.2.1, h.2.2.2.2.2.1⟩

/-- Appending event lists adds their nudge counts. -/
theorem countNudge_append (a b : List Event) :
    countNudge (a ++ b) = countNudge a + countNudge b := by
  simp [countNudge, List.filter_append]

/-- triggerLimit never emits a nudge directive. -/
theorem countNudge_triggerLimit (now : Nat) (s : ServiceState) :
    countNudge (triggerLimit now s).1 = 0 := by
  unfold triggerLimit
  split
  · rfl
  · dsimp only
    split_ifs <;> rfl

/-- When all its guards pass, triggerNudge emits exactly one nudge directive
and sets the nudged flag. -/
theorem triggerNudge_fires (s : ServiceState)
    (hen : s.settings.enabled = true) (hal : s.settings.allowSnooze = true)
    (hn : s.flags.nudged = false) (hp : s.flags.pausedToday = false)
    (hsz : s.flags.snoozed = false) (hl : s.flags.locked = false) :
    countNudge (triggerNudge s).1 = 1 ∧ (triggerNudge s).2.flags.nudged = true := by
  unfold triggerNudge
  rw [show (!s.settings.enabled || !s.settings.allowSnooze || s.flags.nudged
      || s.flags.pausedToday || s.flags.snoozed || s.flags.locked) = false by
    rw [hen, hal, hn, hp, hsz, hl]; rfl]
  simp [countNudge]

/-- checkLimits preserves the ten-minute invariant and fires the nudge
exactly on the crossing of the 480000ms threshold, when supplied with the
freshly accumulated usage record (`cPre` is the pre-tick counter, to which
the nudged flag is tied). -/
theorem c8_checkLimits_inv (now m cPre : Nat) (u : DailyUsage) (s : ServiceState)
    (hset : s.settings = tenMinuteSettings)
    (hp : s.flags.pausedToday = false) (hsz : s.flags.snoozed = false)
    (hl : s.flags.locked = false) (htkl : s.tk.isLocked = false)
    (hia : s.tk.isActive = true)
    (hlt : ∃ t, s.tk.lastTickTime = some t ∧ t ≤ m)
    (hu : u.millisActive = s.tk.currentUsageMs)
    (hiff : s.flags.nudged = true ↔ 480000 ≤ cPre)
    (hmono : cPre ≤ s.tk.currentUsageMs) :
    C8Inv m (checkLimits now u s).2 ∧
    countNudge (checkLimits now u s).1 + c8ind cPre
      = c8ind (checkLimits now u s).2.tk.currentUsageMs := by
  have hen : s.settings.enabled = true := by rw [hset]; rfl
  have hal : s.settings.allowSnooze = true := by rw [hset]; rfl
  have h480 : s.settings.dailyLimitMin * 60 * 1000 * 4 / 5 = 480000 := by
    rw [hset]; rfl
  have h598 : s.settings.dailyLimitMin * 60 * 1000 - 2000 = 598000 := by
    rw [hset]; rfl
  unfold checkLimits
  rw [show (!s.settings.enabled || s.flags.pausedToday || s.flags.locked) = false by
    rw [hen, hp, hl]; rfl]
  simp only [Bool.false_eq_true, if_false]
  split
  · rename_i hs; rw [hsz] at hs; exact Bool.noConfusion hs
  · rw [h480, h598]
    split_ifs with h2 h1 h1'
    · -- crossing tick that also reaches the lock threshold
      have hand := h1
      simp only [Bool.and_eq_true, Bool.not_eq_true', decide_eq_true_eq] at hand
      obtain ⟨hnf, h480u⟩ := hand
      have hfire := triggerNudge_fires s hen hal hnf hp hsz hl
      have hlock := triggerLimit_locks now (triggerNudge s).2
        (by rw [triggerNudge_settings]; exact hen)
        (by rw [triggerNudge_locked]; exact hl)
        (by rw [triggerNudge_paused]; exact hp)
        (by simp only [triggerNudge_snoozed, triggerNudge_settings,
              triggerNudge_tk, hsz, Bool.false_eq_true, if_false, h598]
            exact h2.trans_eq hu)
      constructor
      · refine ⟨?_, ?_, ?_, Or.inr ⟨hlock.1, hlock.2.2.2, ?_⟩⟩
        · rw [triggerLimit_settings, triggerNudge_settings]; exact hset
        · rw [triggerLimit_paused, triggerNudge_paused]; exact hp
        · rw [triggerLimit_snoozed, triggerNudge_snoozed]; exact hsz
        · rw [triggerLimit_cum, triggerNudge_tk]; exact h480u.trans_eq hu
      · rw [countNudge_append, hfire.1, countNudge_triggerLimit,
          triggerLimit_cum, triggerNudge_tk]
        have hc0 : c8ind cPre = 0 := by
          unfold c8ind
          rw [if_neg]
          intro hge
          rw [hiff.mpr hge] at hnf
          exact Bool.noConfusion hnf
        have hc1 : c8ind s.tk.currentUsageMs = 1 := by
          unfold c8ind
          rw [if_pos (h480u.trans_eq hu)]
        rw [hc0, hc1]
    · -- lock threshold reached on an already-nudged counter
      have h480u : (480000 : Nat) ≤ u.millisActive :=
        le_trans (by norm_num) h2
      have hnt : s.flags.nudged = true := by
        cases hn : s.flags.nudged
        · exfalso
          apply h1
          rw [hn]
          simp [h480u]
        · rfl
      have hlock := triggerLimit_locks now s hen hl hp
        (by simp only [hsz, Bool.false_eq_true, if_false, h598]
            exact h2.trans_eq hu)
      constructor
      · refine ⟨?_, ?_, ?_, Or.inr ⟨hlock.1, hlock.2.2.2, ?_⟩⟩
        · rw [triggerLimit_settings]; exact hset
        · rw [triggerLimit_paused]; exact hp
        · rw [triggerLimit_snoozed]; exact hsz
        · rw [triggerLimit_cum]; exact h480u.trans_eq hu
      · rw [show countNudge (([] : List Event)
            ++ (triggerLimit now s).1) = 0 by
            rw [countNudge_append, countNudge_triggerLimit]; rfl,
          triggerLimit_cum]
        have hc1 : c8ind cPre = 1 := by
          unfold c8ind
          rw [if_pos (hiff.mp hnt)]
        have hc1' : c8ind s.tk.currentUsageMs = 1 := by
          unfold c8ind
          rw [if_pos (h480u.trans_eq hu)]
        rw [hc1, hc1']
    · -- crossing tick below the lock threshold: the nudge alone
      have hand := h1'
      simp only [Bool.and_eq_true, Bool.not_eq_true', decide_eq_true_eq] at hand
      obtain ⟨hnf, h480u⟩ := hand
      have hfire := triggerNudge_fires s hen hal hnf hp hsz hl
      constructor
      · refine ⟨?_, ?_, ?_, Or.inl ⟨?_, ?_, ?_, ?_, ?_, ?_⟩⟩
        · rw [triggerNudge_settings]; exact hset
        · rw [triggerNudge_paused]; exact hp
        · rw [triggerNudge_snoozed]; exact hsz
        · rw [triggerNudge_locked]; exact hl
        · rw [triggerNudge_tk]; exact htkl
        · rw [triggerNudge_tk]; exact hia
        · rw [triggerNudge_tk]; exact hlt
        · rw [triggerNudge_tk]; exact hu.symm.trans_lt (Nat.lt_of_not_le h2)
        · rw [triggerNudge_tk]
          exact iff_of_true hfire.2 (h480u.trans_eq hu)
      · rw [hfire.1, triggerNudge_tk]
        have hc0 : c8ind cPre = 0 := by
          unfold c8ind
          rw [if_neg]
          intro hge
          rw [hiff.mpr hge] at hnf
          exact Bool.noConfusion hnf
        have hc1 : c8ind s.tk.currentUsageMs = 1 := by
          unfold c8ind
          rw [if_pos (h480u.trans_eq hu)]
        rw [hc0, hc1]
    · -- nothing fires
      constructor
      · refine ⟨hset, hp, hsz, Or.inl ⟨hl, htkl, hia, hlt,
          hu.symm.trans_lt (Nat.lt_of_not_le h2), ?_⟩⟩
        constructor
        · intro hnt
          exact le_trans (hiff.mp hnt) hmono
        · intro hge
          cases hn : s.flags.nudged
          · exfalso
            apply h1'
            rw [hn]
            simp [hge.trans_eq hu.symm]
          · rfl
      · cases hn : s.flags.nudged
        · have hc0 : c8ind cPre = 0 := by
            unfold c8ind
            rw [if_neg]
            intro hge
            rw [hiff.mpr hge] at hn
            exact Bool.noConfusion hn
          have hc0' : c8ind s.tk.currentUsageMs = 0 := by
            unfold c8ind
            rw [if_neg]
            intro hge
            apply h1'
            rw [hn]
            simp [hge.trans_eq hu.symm]
          rw [hc0, hc0']
          rfl
        · have hc1 : c8ind cPre = 1 := by
            unfold c8ind
            rw [if_pos (hiff.mp hn)]
          have hc1' : c8ind s.tk.currentUsageMs = 1 := by
            unfold c8ind
            rw [if_pos (le_trans (hiff.mp hn) hmono)]
          rw [hc1, hc1']
          rfl

/-- One tick preserves the ten-minute invariant and fires the nudge exactly
on the crossing of the threshold. -/
theorem c8_tick (m : Nat) (e : TickEnv) (s : ServiceState)
    (hinv : C8Inv m s) (hm : m ≤ e.now) (hidle : e.idle = false) :
    C8Inv e.now (tick e s).2 ∧
    countNudge (tick e s).1 + c8ind s.tk.currentUsageMs
      = c8ind (tick e s).2.tk.currentUsageMs := by
  obtain ⟨hset, hp, hsz, hphase⟩ := hinv
  rcases hphase with ⟨hl, htkl, hia, ⟨t, hlt, htm⟩, hcum, hiff⟩ | ⟨hl, hia, hcum⟩
  · have hen : s.settings.enabled = true := by rw [hset]; rfl
    unfold tick
    simp only [hia, hlt]
    by_cases hd : e.now - t < 100
    · rw [if_pos hd]
      exact ⟨⟨hset, hp, hsz,
        Or.inl ⟨hl, htkl, hia, ⟨t, hlt, le_trans htm hm⟩, hcum, hiff⟩⟩,
        by simp [countNudge]⟩
    · rw [if_neg hd]
      rw [show (s.tk.isLocked || !s.settings.enabled || s.flags.locked
          || s.flags.pausedToday) = false by rw [htkl, hen, hl, hp]; rfl]
      simp only [Bool.false_eq_true, if_false, hidle]
      exact c8_checkLimits_inv e.now e.now s.tk.currentUsageMs _ _
        hset hp hsz hl htkl rfl ⟨e.now, rfl, Nat.le_refl e.now⟩ rfl hiff
        (Nat.le_add_right _ _)
  · rw [tick_inactive e s hia]
    exact ⟨⟨hset, hp, hsz, Or.inr ⟨hl, hia, hcum⟩⟩, by simp [countNudge]⟩

/-- A chained tick run preserves the ten-minute invariant and its nudge count
is the difference of the threshold indicators. -/
theorem c8_run (envs : List TickEnv) (m : Nat) (s : ServiceState)
    (hinv : C8Inv m s) (hchain : envsChainFrom m envs = true) :
    (∃ m2, C8Inv m2 (runTicks envs s)) ∧
    countNudge (runTicksEvents envs s) + c8ind s.tk.currentUsageMs
      = c8ind (runTicks envs s).tk.currentUsageMs := by
  induction envs generalizing m s with
  | nil => exact ⟨⟨m, hinv⟩, by simp [runTicks, runTicksEvents, countNudge]⟩
  | cons e rest ih =>
    simp only [envsChainFrom, Bool.and_eq_true, decide_eq_true_eq,
      Bool.not_eq_true'] at hchain
    obtain ⟨⟨hm, hidle⟩, hrest⟩ := hchain
    obtain ⟨h1, hcnt1⟩ := c8_tick m e s hinv hm hidle
    obtain ⟨h2, hcnt2⟩ := ih e.now (tick e s).2 h1 hrest
    have hr : runTicks (e :: rest) s = runTicks rest (tick e s).2 := by
      simp [runTicks]
    have he : runTicksEvents (e :: rest) s
        = (tick e s).1 ++ runTicksEvents rest (tick e s).2 := rfl
    constructor
    · rw [hr]; exact h2
    · rw [hr, he, countNudge_append]
      omega

/-- C8 counterexample: the claim fails on the code.  With the 600000ms limit
but snoozing disallowed in settings, a run whose accumulated counter reaches
480000ms emits no nudge at all and never sets the nudged flag (the nudge is
gated on allowSnooze). -/
theorem C8_counterexample :
    (runTicks [{ now := 580000, idle := false }]
        c8StartNoSnooze).tk.currentUsageMs = 480000 ∧
    (runTicks [{ now := 580000, idle := false }]
        c8StartNoSnooze).flags.nudged = false ∧
    countNudge (runTicksEvents [{ now := 580000, idle := false }]
        c8StartNoSnooze) = 0 := by
  decide

/-- C8 amended: with snoozing allowed (the default), for every chained tick
run from the fresh ten-minute state the nudge directive is emitted exactly
once if the accumulated counter ever reaches 480000ms and never otherwise;
applied to any prefix this places the single firing at the first tick that
reaches the threshold, with no re-firing afterwards. -/
theorem C8_amended (envs : List TickEnv)
    (hchain : envsChainFrom 100000 envs = true) :
    countNudge (runTicksEvents envs c8Start)
      = if 480000 ≤ (runTicks envs c8Start).tk.currentUsageMs then 1 else 0 := by
  have hinv0 : C8Inv 100000 c8Start := by
    refine ⟨rfl, rfl, rfl,
      Or.inl ⟨rfl, rfl, rfl, ⟨100000, rfl, Nat.le_refl _⟩, by decide, ?_⟩⟩
    decide
  obtain ⟨_, hcnt⟩ := c8_run envs 100000 c8Start hinv0 hchain
  have h0 : c8ind c8Start.tk.currentUsageMs = 0 := by decide
  rw [h0] at hcnt
  simpa [c8ind] using hcnt

/-- C8 amended witness: the run theorem applied to a concrete two-tick run
that crosses the threshold at its first tick. -/
theorem C8_amended_witness :
    countNudge (runTicksEvents
        [{ now := 580000, idle := false }, { now := 590000, idle := false }]
        c8Start)
      = if 480000 ≤ (runTicks
          [{ now := 580000, idle := false }, { now := 590000, idle := false }]
          c8Start).tk.currentUsageMs then 1 else 0 :=
  C8_amended [{ now := 580000, idle := false }, { now := 590000, idle := false }]
    (by decide)

end Boundr
